import Mathlib

/-!
Shallow embedding of the FINTRACK inventory and transaction-ledger engine
(src/services/db.ts, src/services/mockDb.ts, src/components/Transactions.tsx).

Monetary amounts and quantities are JavaScript numbers in the source; they are
modelled as rationals.  ISO date strings and instants are modelled as integers
on one common timeline (a value may be read as a day index or a timestamp; only
their ordering matters to the code).  The source's `Number(x) || 0` coercions of
optional numeric fields are modelled by making those fields total rationals.
Nondeterministic id generation (`t-` plus `Date.now()`) is abstracted as an
explicit `newId` argument.
-/

inductive TxType where
  | purchase
  | sale
deriving DecidableEq, Repr

inductive PaymentType where
  | cash
  | credit
deriving DecidableEq, Repr

inductive PaymentStatus where
  | paid
  | pending
  | overdue
deriving DecidableEq, Repr

inductive StockStatus where
  | ok
  | low
  | out
deriving DecidableEq, Repr

/-- `Product` row (src/types, interface Product). -/
structure Product where
  id : String
  userId : String
  name : String
  category : String
  minStockLevel : ℚ
  unit : String
deriving DecidableEq, Repr

/-- `Transaction` row (src/types, interface Transaction).  `quantity` is the
gross quantity; `deduction` and `extraAmount` are optional in the source and
coerced with `Number(x) || 0`, hence total here. -/
structure Transaction where
  id : String
  userId : String
  productId : String
  productName : String
  type : TxType
  partyName : String
  quantity : ℚ
  deduction : ℚ
  deductionReason : Option String
  extraAmount : ℚ
  extraReason : Option String
  unit : String
  pricePerUnit : ℚ
  totalValue : ℚ
  date : ℤ
  paymentType : PaymentType
  creditPeriod : Option ℕ
  dueDate : Option ℤ
  paymentStatus : PaymentStatus
deriving DecidableEq, Repr

/-- Derived per-product summary (src/types, interface InventoryItem). -/
structure InventoryItem extends Product where
  stock : ℚ
  avgCost : ℚ
  totalValue : ℚ
  status : StockStatus
deriving DecidableEq, Repr

/-- `netQty` inside the `getInventorySummary` fold:
`(Number(tx.quantity) || 0) - (Number(tx.deduction) || 0)`. -/
def netQty (t : Transaction) : ℚ := t.quantity - t.deduction

/-- The three mutable accumulators of the `getInventorySummary` fold
(`let stock = 0; let totalCost = 0; let totalPurchased = 0`). -/
structure InvAcc where
  stock : ℚ
  totalCost : ℚ
  totalPurchased : ℚ
deriving DecidableEq, Repr

/-- One step of the `productTx.forEach(tx => ...)` loop of
`getInventorySummary` (identical in src/services/db.ts lines 198-211 and
src/services/mockDb.ts lines 239-248): purchases add `netQty` to stock and to
`totalPurchased` and `netQty * pricePerUnit` to `totalCost` (the extra amount
is not read); sales subtract `netQty` from stock. -/
def invStep (acc : InvAcc) (tx : Transaction) : InvAcc :=
  match tx.type with
  | TxType.purchase =>
      { stock := acc.stock + netQty tx
        totalCost := acc.totalCost + netQty tx * tx.pricePerUnit
        totalPurchased := acc.totalPurchased + netQty tx }
  | TxType.sale =>
      { acc with stock := acc.stock - netQty tx }

/-- Boolean test `tx.type === 'purchase'`. -/
def isPurchase (t : Transaction) : Bool :=
  match t.type with
  | TxType.purchase => true
  | TxType.sale => false

/-- Boolean test `tx.type === 'sale'`. -/
def isSale (t : Transaction) : Bool :=
  match t.type with
  | TxType.purchase => false
  | TxType.sale => true

/-- The per-product body of `getInventorySummary` (src/services/db.ts lines
192-222, src/services/mockDb.ts lines 233-253): filter the transactions to this
product, fold, then derive `avgCost`, `totalValue` and `status`. -/
def summarize (product : Product) (transactions : List Transaction) : InventoryItem :=
  let productTx := transactions.filter (fun t => t.productId == product.id)
  let acc := productTx.foldl invStep ⟨0, 0, 0⟩
  let avgCost : ℚ := if acc.totalPurchased > 0 then acc.totalCost / acc.totalPurchased else 0
  { toProduct := product
    stock := acc.stock
    avgCost := avgCost
    totalValue := acc.stock * avgCost
    status :=
      if acc.stock ≤ 0 then StockStatus.out
      else if acc.stock < product.minStockLevel then StockStatus.low
      else StockStatus.ok }

/-- The caller-supplied payload of `addTransaction`
(`Omit<Transaction, 'id' | 'totalValue' | 'productName' | 'unit' | 'userId'
| 'paymentStatus' | 'dueDate'> & { creditPeriod?: number }`).  Optional numeric
fields coerced by `Number(x) || 0` in the source are total rationals here;
`creditPeriod` keeps its optionality because the source tests its truthiness. -/
structure NewTxInput where
  productId : String
  type : TxType
  partyName : String
  quantity : ℚ
  deduction : ℚ
  deductionReason : Option String
  extraAmount : ℚ
  extraReason : Option String
  pricePerUnit : ℚ
  date : ℤ
  paymentType : PaymentType
  creditPeriod : Option ℕ
deriving DecidableEq, Repr

/-- JavaScript truthiness of the optional `creditPeriod` (`if (tx.creditPeriod)`):
absent and 0 are falsy. -/
def creditPeriodTruthy : Option ℕ → Bool
  | some n => n ≠ 0
  | none => false

/-- Due-date assignment shared by both services (src/services/db.ts lines
112-121, src/services/mockDb.ts lines 181-190): only a credit payment with a
truthy `creditPeriod` gets `dueDate = date + creditPeriod` (calendar days;
`d.setDate(d.getDate() + n)` modelled as adding `n` to the day index). -/
def computeDueDate (paymentType : PaymentType) (date : ℤ) (creditPeriod : Option ℕ) : Option ℤ :=
  if paymentType = PaymentType.credit then
    match creditPeriod with
    | some n => if n ≠ 0 then some (date + (n : ℤ)) else none
    | none => none
  else none

/-- Payment-status assignment shared by both services: `'paid'` unless the
payment type is credit, in which case `'pending'`. -/
def computePaymentStatus (paymentType : PaymentType) : PaymentStatus :=
  if paymentType = PaymentType.credit then PaymentStatus.pending else PaymentStatus.paid

/-- `SupabaseService.addTransaction` (src/services/db.ts lines 97-176): resolve
the product (else reject), derive `netQuantity`, `totalValue` (extra amount
included), due date and payment status, and return the inserted row.  The
insert-then-select round trip through the store is modelled as the identity on
the built row; no stock check and no numeric validation appear in the source. -/
def addTransactionSupabase (tx : NewTxInput) (products : List Product)
    (userId newId : String) : Except String Transaction :=
  match products.find? (fun p => p.id == tx.productId) with
  | none => Except.error "Product not found"
  | some product =>
      let grossQty := tx.quantity
      let deductionAmt := tx.deduction
      let extraAmount := tx.extraAmount
      let netQuantity := grossQty - deductionAmt
      let totalValue := netQuantity * tx.pricePerUnit + extraAmount
      Except.ok
        { id := newId
          userId := userId
          productId := tx.productId
          productName := product.name
          type := tx.type
          partyName := tx.partyName
          quantity := grossQty
          deduction := deductionAmt
          deductionReason := tx.deductionReason
          extraAmount := extraAmount
          extraReason := tx.extraReason
          unit := product.unit
          pricePerUnit := tx.pricePerUnit
          totalValue := totalValue
          date := tx.date
          paymentType := tx.paymentType
          creditPeriod := tx.creditPeriod
          dueDate := computeDueDate tx.paymentType tx.date tx.creditPeriod
          paymentStatus := computePaymentStatus tx.paymentType }

/-- `MockDBService.addTransaction` (src/services/mockDb.ts lines 169-215):
same resolution and lifecycle logic, but `totalValue` is `netQuantity *
pricePerUnit` with no extra amount, and the stored row carries no extra charge
at all (the input's `extraAmount`/`extraReason` are never read); the new row is
prepended to the store.  No stock check and no numeric validation appear. -/
def addTransactionMock (tx : NewTxInput) (products : List Product)
    (userId newId : String) (store : List Transaction) :
    Except String (Transaction × List Transaction) :=
  match products.find? (fun p => p.id == tx.productId) with
  | none => Except.error "Product not found"
  | some product =>
      let netQuantity := tx.quantity - tx.deduction
      let totalValue := netQuantity * tx.pricePerUnit
      let newTx : Transaction :=
        { id := newId
          userId := userId
          productId := tx.productId
          productName := product.name
          type := tx.type
          partyName := tx.partyName
          quantity := tx.quantity
          deduction := tx.deduction
          deductionReason := tx.deductionReason
          extraAmount := 0
          extraReason := none
          unit := product.unit
          pricePerUnit := tx.pricePerUnit
          totalValue := totalValue
          date := tx.date
          paymentType := tx.paymentType
          creditPeriod := tx.creditPeriod
          dueDate := computeDueDate tx.paymentType tx.date tx.creditPeriod
          paymentStatus := computePaymentStatus tx.paymentType }
      Except.ok (newTx, newTx :: store)

/-- The read-time status projection of `SupabaseService.getTransactions`
(src/services/db.ts lines 63-70): a pending row whose due date lies strictly
before the start of the current local day is surfaced as overdue; every other
row is returned unchanged. -/
def refreshStatusSupabase (startOfToday : ℤ) (t : Transaction) : Transaction :=
  if t.paymentStatus = PaymentStatus.pending then
    match t.dueDate with
    | some d => if d < startOfToday then { t with paymentStatus := PaymentStatus.overdue } else t
    | none => t
  else t

/-- The read-time status projection of `MockDBService.getTransactions`
(src/services/mockDb.ts line 147): as above but compared against the current
instant `now` rather than the start of the day. -/
def refreshStatusMock (now : ℤ) (t : Transaction) : Transaction :=
  if t.paymentStatus = PaymentStatus.pending then
    match t.dueDate with
    | some d => if d < now then { t with paymentStatus := PaymentStatus.overdue } else t
    | none => t
  else t

/-- `MockDBService.getTransactions` (src/services/mockDb.ts lines 144-167):
refresh every stored row's status, then keep the caller's rows. -/
def getTransactionsMock (userId : String) (now : ℤ) (store : List Transaction) :
    List Transaction :=
  (store.map (refreshStatusMock now)).filter (fun t => t.userId == userId)

/-- `MockDBService.getProducts` (src/services/mockDb.ts lines 117-127). -/
def getProductsMock (userId : String) (allProducts : List Product) : List Product :=
  allProducts.filter (fun p => p.userId == userId)

/-- `MockDBService.getInventorySummary` (src/services/mockDb.ts lines 229-254):
one `summarize` entry per product of the caller, over the caller's refreshed
transaction list. -/
def getInventorySummaryMock (userId : String) (now : ℤ) (allProducts : List Product)
    (store : List Transaction) : List InventoryItem :=
  (getProductsMock userId allProducts).map
    (fun product => summarize product (getTransactionsMock userId now store))

/-- `MockDBService.markTransactionAsPaid` (src/services/mockDb.ts lines
217-221): rewrite the store, setting `paymentStatus` to paid on the row whose
id and owner both match; every other row is kept as is. -/
def markTransactionAsPaid (id userId : String) (store : List Transaction) :
    List Transaction :=
  store.map (fun t =>
    if t.id == id && t.userId == userId
    then { t with paymentStatus := PaymentStatus.paid }
    else t)

/-- `MockDBService.markTransactionAsPaid` as the caller observes it: the async
function always resolves (the source contains no throw and no lookup failure),
so the result is always `Except.ok` of the rewritten store. -/
def markTransactionAsPaidE (id userId : String) (store : List Transaction) :
    Except String (List Transaction) :=
  Except.ok (markTransactionAsPaid id userId store)

/-- One row of the transaction form (src/components/Transactions.tsx lines
30-32).  The form fields are strings; `none` models an empty field (falsy in
the `!item.quantity` checks), `some q` a field that parses to `q`
(`parseFloat(x) || 0` of a non-empty field is its parsed value, `0` when the
parse fails, which `some 0` also covers). -/
structure FormItem where
  productId : String
  quantity : Option ℚ
  deduction : Option ℚ
  deductionReason : String
  pricePerUnit : Option ℚ
deriving DecidableEq, Repr

/-- The validation loop at the top of `Transactions.handleTransaction`
(src/components/Transactions.tsx lines 87-104): each row must have a product,
a quantity and a price; for a sale, the freshly computed inventory entry for
the row's product must exist and its stock must not be below the row's net
quantity (clamped at 0).  The first failing row aborts the whole submission. -/
def itemsValid (type : TxType) (inventory : List InventoryItem) :
    List FormItem → Except String Unit
  | [] => Except.ok ()
  | item :: rest =>
      if item.productId = "" ∨ item.quantity = none ∨ item.pricePerUnit = none then
        Except.error "Please fill in all product details for all items."
      else
        let grossQty := item.quantity.getD 0
        let deductionAmt := item.deduction.getD 0
        let netQty := max 0 (grossQty - deductionAmt)
        if type = TxType.sale then
          match inventory.find? (fun i => i.id == item.productId) with
          | none => Except.error "Insufficient stock for product."
          | some invItem =>
              if invItem.stock < netQty then Except.error "Insufficient stock for product."
              else itemsValid type inventory rest
        else itemsValid type inventory rest

/-- `Transactions.handleTransaction` against the mock store
(src/components/Transactions.tsx lines 83-143): when the validation loop
aborts, the service is never called and the store is untouched; otherwise the
component submits its payload to `dbService.addTransaction` (the payload it
actually builds nests the rows under `items`, a shape the service does not
read; the submitted top-level fields are taken here as an explicit `payload`).
A service error also leaves the store unchanged. -/
def handleTransactionMock (type : TxType) (items : List FormItem)
    (inventory : List InventoryItem) (payload : NewTxInput) (products : List Product)
    (userId newId : String) (store : List Transaction) : List Transaction :=
  match itemsValid type inventory items with
  | Except.error _ => store
  | Except.ok _ =>
      match addTransactionMock payload products userId newId store with
      | Except.error _ => store
      | Except.ok r => r.2
/-- Sample product, mirroring the seeded `p-1` row of the mock store. -/
def pA : Product :=
  { id := "p-1", userId := "u1", name := "Arabica Coffee Beans",
    category := "Raw Material", minStockLevel := 50, unit := "kg" }

/-- Base transaction literal used to build concrete sample rows. -/
def baseTx : Transaction :=
  { id := "t-0", userId := "u1", productId := "p-1",
    productName := "Arabica Coffee Beans", type := TxType.purchase,
    partyName := "Global Beans Co.", quantity := 0, deduction := 0,
    deductionReason := none, extraAmount := 0, extraReason := none, unit := "kg",
    pricePerUnit := 0, totalValue := 0, date := 0, paymentType := PaymentType.cash,
    creditPeriod := none, dueDate := none, paymentStatus := PaymentStatus.paid }

/-- Sample purchase: gross 500, deduction 10, price 12.50 (net 490). -/
def purchase490 : Transaction :=
  { baseTx with id := "t-1", quantity := 500, deduction := 10,
                deductionReason := some "Moisture Loss", pricePerUnit := 12.5,
                totalValue := 6125 }

/-- Sample sale: gross 450 at price 12.50. -/
def sale450 : Transaction :=
  { baseTx with id := "t-2", type := TxType.sale, quantity := 450,
                pricePerUnit := 12.5, totalValue := 5625 }

/-- Sample creation payload: cash purchase with an extra charge. -/
def c2input : NewTxInput :=
  { productId := "p-1", type := TxType.purchase, partyName := "Global Beans Co.",
    quantity := 500, deduction := 10, deductionReason := some "Moisture Loss",
    extraAmount := 75, extraReason := some "Shipping", pricePerUnit := 12.5,
    date := 100, paymentType := PaymentType.cash, creditPeriod := none }

/-- The row `addTransactionSupabase` builds from `c2input` against `[pA]`. -/
def c2created : Transaction :=
  { id := "t-c2", userId := "u1", productId := "p-1",
    productName := "Arabica Coffee Beans", type := TxType.purchase,
    partyName := "Global Beans Co.", quantity := 500, deduction := 10,
    deductionReason := some "Moisture Loss", extraAmount := 75,
    extraReason := some "Shipping", unit := "kg", pricePerUnit := 12.5,
    totalValue := 6200, date := 100, paymentType := PaymentType.cash,
    creditPeriod := none, dueDate := none, paymentStatus := PaymentStatus.paid }

/-- Sample creation payload: credit purchase with a 7-day credit period. -/
def c5input : NewTxInput :=
  { c2input with paymentType := PaymentType.credit, creditPeriod := some 7 }

/-- The row `addTransactionSupabase` builds from `c5input` against `[pA]`. -/
def c5created : Transaction :=
  { c2created with id := "t-c5", paymentType := PaymentType.credit,
                   creditPeriod := some 7, dueDate := some 107,
                   paymentStatus := PaymentStatus.pending }

/-- A stored pending credit row due on day 95. -/
def pendingTx : Transaction :=
  { baseTx with id := "t-6", paymentType := PaymentType.credit,
                paymentStatus := PaymentStatus.pending, date := 90,
                creditPeriod := some 5, dueDate := some 95 }

/-- Sale payload of net quantity 5 (no purchases of `p-1` exist in the empty
store, so computed stock is 0). -/
def c7input : NewTxInput :=
  { productId := "p-1", type := TxType.sale, partyName := "John Doe",
    quantity := 5, deduction := 0, deductionReason := none, extraAmount := 0,
    extraReason := none, pricePerUnit := 20, date := 100,
    paymentType := PaymentType.cash, creditPeriod := none }

/-- A form row selling 5 units of `p-1`. -/
def c7item : FormItem :=
  { productId := "p-1", quantity := some 5, deduction := some 0,
    deductionReason := "", pricePerUnit := some 20 }

/-- Purchase payload whose deduction exceeds its gross quantity. -/
def c8input : NewTxInput :=
  { c7input with type := TxType.purchase, quantity := 5, deduction := 10,
                 pricePerUnit := 2 }

/-- A one-row store holding a pending credit transaction. -/
def c9store : List Transaction :=
  [{ baseTx with id := "t-9", paymentType := PaymentType.credit,
                 paymentStatus := PaymentStatus.pending, dueDate := some 95 }]

/-- The fold accumulates `totalPurchased` as the sum of net quantities of the
purchase transactions. -/
theorem invFold_totalPurchased (l : List Transaction) (a : InvAcc) :
    (l.foldl invStep a).totalPurchased
      = a.totalPurchased + ((l.filter isPurchase).map netQty).sum := by
  induction l generalizing a with
  | nil => simp
  | cons t rest ih =>
      cases htype : t.type with
      | purchase =>
          simp [List.foldl_cons, List.filter_cons, isPurchase, htype, invStep, ih]
          ring
      | sale =>
          simp [List.foldl_cons, List.filter_cons, isPurchase, htype, invStep, ih]

/-- The fold accumulates `totalCost` as the sum of `netQty * pricePerUnit`
over the purchase transactions (the extra amount never enters). -/
theorem invFold_totalCost (l : List Transaction) (a : InvAcc) :
    (l.foldl invStep a).totalCost
      = a.totalCost + ((l.filter isPurchase).map (fun t => netQty t * t.pricePerUnit)).sum := by
  induction l generalizing a with
  | nil => simp
  | cons t rest ih =>
      cases htype : t.type with
      | purchase =>
          simp [List.foldl_cons, List.filter_cons, isPurchase, htype, invStep, ih]
          ring
      | sale =>
          simp [List.foldl_cons, List.filter_cons, isPurchase, htype, invStep, ih]

/-- The fold accumulates `stock` as purchases' net quantities minus sales'
net quantities. -/
theorem invFold_stock (l : List Transaction) (a : InvAcc) :
    (l.foldl invStep a).stock
      = a.stock + ((l.filter isPurchase).map netQty).sum
          - ((l.filter isSale).map netQty).sum := by
  induction l generalizing a with
  | nil => simp
  | cons t rest ih =>
      cases htype : t.type with
      | purchase =>
          simp [List.foldl_cons, List.filter_cons, isPurchase, isSale, htype, invStep, ih]
          ring
      | sale =>
          simp [List.foldl_cons, List.filter_cons, isPurchase, isSale, htype, invStep, ih]
          ring

/-- `summarize` written without its local `let` bindings (definitional). -/
theorem summarize_unfold (p : Product) (txs : List Transaction) :
    summarize p txs =
      { toProduct := p
        stock := ((txs.filter (fun t => t.productId == p.id)).foldl invStep ⟨0, 0, 0⟩).stock
        avgCost :=
          if ((txs.filter (fun t => t.productId == p.id)).foldl invStep ⟨0, 0, 0⟩).totalPurchased > 0
          then ((txs.filter (fun t => t.productId == p.id)).foldl invStep ⟨0, 0, 0⟩).totalCost
                / ((txs.filter (fun t => t.productId == p.id)).foldl invStep ⟨0, 0, 0⟩).totalPurchased
          else 0
        totalValue :=
          ((txs.filter (fun t => t.productId == p.id)).foldl invStep ⟨0, 0, 0⟩).stock *
            (if ((txs.filter (fun t => t.productId == p.id)).foldl invStep ⟨0, 0, 0⟩).totalPurchased > 0
             then ((txs.filter (fun t => t.productId == p.id)).foldl invStep ⟨0, 0, 0⟩).totalCost
                   / ((txs.filter (fun t => t.productId == p.id)).foldl invStep ⟨0, 0, 0⟩).totalPurchased
             else 0)
        status :=
          if ((txs.filter (fun t => t.productId == p.id)).foldl invStep ⟨0, 0, 0⟩).stock ≤ 0
          then StockStatus.out
          else if ((txs.filter (fun t => t.productId == p.id)).foldl invStep ⟨0, 0, 0⟩).stock
                    < p.minStockLevel
          then StockStatus.low
          else StockStatus.ok } := rfl

/-- Claim C1: for every product and transaction list, the inventory summary's
stock is the sum of net quantities of the product's purchases minus the sum of
net quantities of its sales, its avgCost is the purchases' quantity-weighted
cost sum divided by the net purchased quantity when that quantity is positive
and 0 otherwise (the extra charge never enters the cost sum), and its
totalValue is stock times avgCost. -/
theorem inventory_summary_formulas (p : Product) (txs : List Transaction) :
    (summarize p txs).stock
        = (((txs.filter (fun t => t.productId == p.id)).filter isPurchase).map netQty).sum
          - (((txs.filter (fun t => t.productId == p.id)).filter isSale).map netQty).sum
  ∧ (summarize p txs).avgCost
        = (if 0 < (((txs.filter (fun t => t.productId == p.id)).filter isPurchase).map netQty).sum
            then (((txs.filter (fun t => t.productId == p.id)).filter isPurchase).map
                    (fun t => netQty t * t.pricePerUnit)).sum
                  / (((txs.filter (fun t => t.productId == p.id)).filter isPurchase).map netQty).sum
            else 0)
  ∧ (summarize p txs).totalValue = (summarize p txs).stock * (summarize p txs).avgCost := by
  refine ⟨?_, ?_, ?_⟩
  · rw [summarize_unfold]
    rw [invFold_stock]
    ring
  · rw [summarize_unfold]
    simp only [invFold_totalPurchased, invFold_totalCost, zero_add]
  · rw [summarize_unfold]

/-- Claim C3: the summary's status is out when stock is at most 0 (negative
stock is not clamped), low when stock is strictly between 0 and the minimum
stock level, and ok when stock is at least the minimum level (positivity of the
threshold makes the ranges disjoint); in particular stock exactly equal to a
positive minStockLevel yields ok, not low. -/
theorem status_classification_rules (p : Product) (txs : List Transaction) :
    ((summarize p txs).stock ≤ 0 → (summarize p txs).status = StockStatus.out)
  ∧ (0 < (summarize p txs).stock → (summarize p txs).stock < p.minStockLevel →
        (summarize p txs).status = StockStatus.low)
  ∧ (0 < (summarize p txs).stock → p.minStockLevel ≤ (summarize p txs).stock →
        (summarize p txs).status = StockStatus.ok)
  ∧ ((summarize p txs).stock = p.minStockLevel → 0 < p.minStockLevel →
        (summarize p txs).status = StockStatus.ok) := by
  have hs : (summarize p txs).status =
      if (summarize p txs).stock ≤ 0 then StockStatus.out
      else if (summarize p txs).stock < p.minStockLevel then StockStatus.low
      else StockStatus.ok := rfl
  refine ⟨?_, ?_, ?_, ?_⟩
  · intro h
    rw [hs, if_pos h]
  · intro h1 h2
    rw [hs, if_neg (by linarith), if_pos h2]
  · intro h1 h2
    rw [hs, if_neg (by linarith), if_neg (by linarith)]
  · intro he h0
    rw [hs, if_neg (by rw [he]; exact not_le.mpr h0), if_neg (by rw [he]; exact lt_irrefl _)]

/-- Claim C4: the inventory summary of a product is invariant under permuting
the input transaction list (only order-insensitive sums are folded). -/
theorem summary_perm_invariant (p : Product) (txs txs' : List Transaction)
    (h : txs.Perm txs') : summarize p txs = summarize p txs' := by
  have hf : (txs.filter (fun t => t.productId == p.id)).Perm
      (txs'.filter (fun t => t.productId == p.id)) := h.filter _
  have hsumP : (((txs.filter (fun t => t.productId == p.id)).filter isPurchase).map netQty).sum
      = (((txs'.filter (fun t => t.productId == p.id)).filter isPurchase).map netQty).sum :=
    ((hf.filter isPurchase).map netQty).sum_eq
  have hsumS : (((txs.filter (fun t => t.productId == p.id)).filter isSale).map netQty).sum
      = (((txs'.filter (fun t => t.productId == p.id)).filter isSale).map netQty).sum :=
    ((hf.filter isSale).map netQty).sum_eq
  have hsumC : (((txs.filter (fun t => t.productId == p.id)).filter isPurchase).map
        (fun t => netQty t * t.pricePerUnit)).sum
      = (((txs'.filter (fun t => t.productId == p.id)).filter isPurchase).map
        (fun t => netQty t * t.pricePerUnit)).sum :=
    ((hf.filter isPurchase).map _).sum_eq
  have e1 : ((txs.filter (fun t => t.productId == p.id)).foldl invStep ⟨0, 0, 0⟩).stock
      = ((txs'.filter (fun t => t.productId == p.id)).foldl invStep ⟨0, 0, 0⟩).stock := by
    rw [invFold_stock, invFold_stock, hsumP, hsumS]
  have e2 : ((txs.filter (fun t => t.productId == p.id)).foldl invStep ⟨0, 0, 0⟩).totalCost
      = ((txs'.filter (fun t => t.productId == p.id)).foldl invStep ⟨0, 0, 0⟩).totalCost := by
    rw [invFold_totalCost, invFold_totalCost, hsumC]
  have e3 : ((txs.filter (fun t => t.productId == p.id)).foldl invStep ⟨0, 0, 0⟩).totalPurchased
      = ((txs'.filter (fun t => t.productId == p.id)).foldl invStep ⟨0, 0, 0⟩).totalPurchased := by
    rw [invFold_totalPurchased, invFold_totalPurchased, hsumP]
  rw [summarize_unfold, summarize_unfold, e1, e2, e3]


/-- Claim C2: a created transaction's totalValue is exactly
(grossQuantity − deduction) × unitPrice + extraCharge, reading every field off
the created row.  The networked service stores the input's extra amount; the
mock service stores no extra charge at all (its rows carry extraAmount 0), so
the identity holds for both. -/
theorem total_value_formula (tx : NewTxInput) (products : List Product)
    (userId newId : String) (store : List Transaction) (product : Product)
    (hfind : products.find? (fun p => p.id == tx.productId) = some product)
    (h0 : 0 ≤ tx.deduction) (h1 : tx.deduction ≤ tx.quantity) :
    (∀ created, addTransactionSupabase tx products userId newId = Except.ok created →
        created.totalValue
          = (created.quantity - created.deduction) * created.pricePerUnit
            + created.extraAmount)
  ∧ (∀ created store',
        addTransactionMock tx products userId newId store = Except.ok (created, store') →
        created.extraAmount = 0
      ∧ created.totalValue
          = (created.quantity - created.deduction) * created.pricePerUnit
            + created.extraAmount) := by
  constructor
  · intro created heq
    simp only [addTransactionSupabase, hfind] at heq
    injection heq with h
    subst h
    rfl
  · intro created store' heq
    simp only [addTransactionMock, hfind] at heq
    injection heq with h
    rw [Prod.mk.injEq] at h
    obtain ⟨h2, -⟩ := h
    subst h2
    exact ⟨rfl, by simp⟩

/-- Claim C5: a created cash transaction is paid with no due date; a created
credit transaction is pending, with due date equal to the transaction date
plus the credit period in calendar days when a positive period is given, and
no due date when none is given.  Stated for both services at once. -/
theorem payment_lifecycle (tx : NewTxInput) (products : List Product)
    (userId newId : String) (store : List Transaction) (product : Product)
    (hfind : products.find? (fun p => p.id == tx.productId) = some product) :
    ∀ created,
      (addTransactionSupabase tx products userId newId = Except.ok created ∨
        ∃ store', addTransactionMock tx products userId newId store
            = Except.ok (created, store')) →
      ((tx.paymentType = PaymentType.cash →
          created.paymentStatus = PaymentStatus.paid ∧ created.dueDate = none)
        ∧ (∀ n, tx.paymentType = PaymentType.credit → tx.creditPeriod = some n → 0 < n →
            created.paymentStatus = PaymentStatus.pending
              ∧ created.dueDate = some (tx.date + (n : ℤ)))
        ∧ (tx.paymentType = PaymentType.credit → tx.creditPeriod = none →
            created.paymentStatus = PaymentStatus.pending ∧ created.dueDate = none)) := by
  intro created h
  have hps : created.paymentStatus = computePaymentStatus tx.paymentType
      ∧ created.dueDate = computeDueDate tx.paymentType tx.date tx.creditPeriod := by
    rcases h with heq | ⟨store', heq⟩
    · simp only [addTransactionSupabase, hfind] at heq
      injection heq with h'
      subst h'
      exact ⟨rfl, rfl⟩
    · simp only [addTransactionMock, hfind] at heq
      injection heq with h'
      rw [Prod.mk.injEq] at h'
      obtain ⟨h2, -⟩ := h'
      subst h2
      exact ⟨rfl, rfl⟩
  obtain ⟨hstat, hdue⟩ := hps
  refine ⟨?_, ?_, ?_⟩
  · intro hc
    rw [hstat, hdue, hc]
    exact ⟨rfl, rfl⟩
  · intro n hc hcp hn
    rw [hstat, hdue, hc, hcp]
    refine ⟨rfl, ?_⟩
    simp [computeDueDate, hn.ne']
  · intro hc hcp
    rw [hstat, hdue, hc, hcp]
    exact ⟨rfl, rfl⟩

/-- The read-time status projection never changes a row's owner. -/
theorem refreshStatusMock_userId (now : ℤ) (t : Transaction) :
    (refreshStatusMock now t).userId = t.userId := by
  unfold refreshStatusMock
  by_cases hp : t.paymentStatus = PaymentStatus.pending
  · rw [if_pos hp]
    cases hd : t.dueDate with
    | none => rfl
    | some d =>
        by_cases hlt : d < now
        · simp [hlt]
        · simp [hlt]
  · rw [if_neg hp]

/-- Claim C6: on read, a stored pending transaction whose due date lies
strictly before the start of the current day is surfaced as overdue by both
services (the mock compares against the current instant, which is at least the
start of the day, so the same rows are covered); a stored paid transaction is
returned as paid regardless of dates; and the mock read returns the refreshed
copy of every row of the owner. -/
theorem overdue_on_read (t : Transaction) (startOfToday now d : ℤ)
    (hsn : startOfToday ≤ now) :
    (t.paymentStatus = PaymentStatus.pending → t.dueDate = some d → d < startOfToday →
        (refreshStatusSupabase startOfToday t).paymentStatus = PaymentStatus.overdue
      ∧ (refreshStatusMock now t).paymentStatus = PaymentStatus.overdue)
  ∧ (t.paymentStatus = PaymentStatus.paid →
        (refreshStatusSupabase startOfToday t).paymentStatus = PaymentStatus.paid
      ∧ (refreshStatusMock now t).paymentStatus = PaymentStatus.paid)
  ∧ (∀ userId store, t ∈ store → t.userId = userId →
        refreshStatusMock now t ∈ getTransactionsMock userId now store) := by
  refine ⟨?_, ?_, ?_⟩
  · intro hp hd hlt
    constructor
    · unfold refreshStatusSupabase
      rw [if_pos hp, hd]
      simp [hlt]
    · unfold refreshStatusMock
      rw [if_pos hp, hd]
      simp [lt_of_lt_of_le hlt hsn]
  · intro hp
    constructor
    · unfold refreshStatusSupabase
      rw [if_neg (by rw [hp]; exact fun hc => PaymentStatus.noConfusion hc)]
      exact hp
    · unfold refreshStatusMock
      rw [if_neg (by rw [hp]; exact fun hc => PaymentStatus.noConfusion hc)]
      exact hp
  · intro userId store hmem huid
    unfold getTransactionsMock
    refine List.mem_filter.mpr ⟨List.mem_map_of_mem _ hmem, ?_⟩
    rw [beq_iff_eq, refreshStatusMock_userId, huid]

/-- Claim C10: the mock inventory summary returns exactly one entry per
product of the caller (in the caller's product-list order), and a product with
no transactions is summarised with stock 0, avgCost 0, totalValue 0 and
status out. -/
theorem summary_covers_all_products (userId : String) (now : ℤ)
    (allProducts : List Product) (store : List Transaction) :
    getInventorySummaryMock userId now allProducts store
      = (allProducts.filter (fun p => p.userId == userId)).map
          (fun p => summarize p (getTransactionsMock userId now store))
  ∧ (getInventorySummaryMock userId now allProducts store).length
      = (allProducts.filter (fun p => p.userId == userId)).length
  ∧ ∀ p, (getTransactionsMock userId now store).filter (fun t => t.productId == p.id) = [] →
      summarize p (getTransactionsMock userId now store)
        = { toProduct := p, stock := 0, avgCost := 0, totalValue := 0,
            status := StockStatus.out } := by
  refine ⟨rfl, ?_, ?_⟩
  · unfold getInventorySummaryMock getProductsMock
    rw [List.length_map]
  · intro p hempty
    rw [summarize_unfold, hempty]
    norm_num

/-- Claim C7 (amended): the net-quantity-versus-stock check lives in the UI
handler, not in `addTransaction`: when a sale row's clamped net quantity
exceeds the stock of its freshly computed inventory entry (or that entry is
missing), `handleTransaction`'s validation loop aborts with the
insufficient-stock message before calling the service, and the store is left
unchanged. -/
theorem sale_guard_in_handler (item : FormItem) (rest : List FormItem)
    (inventory : List InventoryItem) (invItem : InventoryItem) (payload : NewTxInput)
    (products : List Product) (userId newId : String) (store : List Transaction)
    (hfilled : ¬(item.productId = "" ∨ item.quantity = none ∨ item.pricePerUnit = none))
    (hfind : inventory.find? (fun i => i.id == item.productId) = some invItem)
    (hstock : invItem.stock < max 0 (item.quantity.getD 0 - item.deduction.getD 0)) :
    itemsValid TxType.sale inventory (item :: rest)
        = Except.error "Insufficient stock for product."
  ∧ handleTransactionMock TxType.sale (item :: rest) inventory payload products
        userId newId store = store := by
  have hval : itemsValid TxType.sale inventory (item :: rest)
      = Except.error "Insufficient stock for product." := by
    unfold itemsValid
    rw [if_neg hfilled, if_pos rfl, hfind]
    simp [hstock]
  refine ⟨hval, ?_⟩
  unfold handleTransactionMock
  rw [hval]

/-- Claim C7 is false of `addTransaction` itself: against an empty store the
computed stock of `pA` is 0, yet the mock service accepts a sale of net
quantity 5 and persists a row (no `InsufficientStockError` exists in the
source). -/
theorem sale_stock_not_checked_counterexample :
    (summarize pA []).stock = 0
  ∧ (0 : ℚ) < c7input.quantity - c7input.deduction
  ∧ (addTransactionMock c7input [pA] "u1" "t-c7" []).map (fun r => r.2.length)
      = Except.ok 1 := by
  refine ⟨rfl, by norm_num [c7input], rfl⟩

/-- Claim C8 (amended): `addTransaction` performs no numeric validation: an
input with non-positive quantity or price or with deduction exceeding the
gross quantity is persisted as-is (the mock prepends the row; totalValue is
computed by the same formula, going negative when deduction exceeds gross),
and the networked service builds its insert row the same way. -/
theorem no_numeric_validation (tx : NewTxInput) (products : List Product)
    (userId newId : String) (store : List Transaction) (product : Product)
    (hfind : products.find? (fun p => p.id == tx.productId) = some product)
    (hbad : tx.quantity ≤ 0 ∨ tx.pricePerUnit ≤ 0 ∨ tx.quantity < tx.deduction) :
    (∃ newTx, addTransactionMock tx products userId newId store
          = Except.ok (newTx, newTx :: store)
        ∧ newTx.totalValue = (tx.quantity - tx.deduction) * tx.pricePerUnit)
  ∧ (∃ created, addTransactionSupabase tx products userId newId = Except.ok created
        ∧ created.totalValue
            = (tx.quantity - tx.deduction) * tx.pricePerUnit + tx.extraAmount) := by
  constructor
  · unfold addTransactionMock
    rw [hfind]
    exact ⟨_, rfl, rfl⟩
  · unfold addTransactionSupabase
    rw [hfind]
    exact ⟨_, rfl, rfl⟩

/-- Claim C8 is false as stated: a purchase whose deduction (10) exceeds its
gross quantity (5) is not rejected — the mock service persists it. -/
theorem validation_missing_counterexample :
    c8input.quantity < c8input.deduction
  ∧ (addTransactionMock c8input [pA] "u1" "t-c8" []).map (fun r => r.2.length)
      = Except.ok 1 := by
  refine ⟨by norm_num [c8input, c7input], rfl⟩

/-- Claim C9 (amended): `markTransactionAsPaid` sets paymentStatus to paid on
the row matching both id and owner; when no row matches (missing id or foreign
owner) it completes silently with the store unchanged — no NotFound/Forbidden
failure exists in the source — and it is idempotent. -/
theorem mark_paid_behavior (id userId : String) (store : List Transaction) :
    ((∀ t ∈ store, ¬(t.id = id ∧ t.userId = userId)) →
        markTransactionAsPaid id userId store = store)
  ∧ markTransactionAsPaid id userId (markTransactionAsPaid id userId store)
      = markTransactionAsPaid id userId store
  ∧ (∀ t ∈ store, t.id = id → t.userId = userId →
        { t with paymentStatus := PaymentStatus.paid }
          ∈ markTransactionAsPaid id userId store)
  ∧ markTransactionAsPaidE id userId store
      = Except.ok (markTransactionAsPaid id userId store) := by
  refine ⟨?_, ?_, ?_, rfl⟩
  · intro h
    unfold markTransactionAsPaid
    have hid : ∀ t ∈ store,
        (if t.id == id && t.userId == userId
         then { t with paymentStatus := PaymentStatus.paid } else t) = t := by
      intro t ht
      rw [if_neg]
      simp only [Bool.and_eq_true, beq_iff_eq]
      exact fun hc => h t ht hc
    rw [List.map_congr_left hid]
    simp
  · unfold markTransactionAsPaid
    rw [List.map_map]
    apply List.map_congr_left
    intro t _
    by_cases hc : (t.id == id && t.userId == userId) = true
    · simp [Function.comp, hc]
    · simp [Function.comp, hc]
  · intro t ht hid huid
    unfold markTransactionAsPaid
    refine List.mem_map.mpr ⟨t, ht, ?_⟩
    rw [if_pos]
    simp [hid, huid]

/-- Claim C9 is false as stated: marking a transaction id absent from the
store succeeds with the store unchanged instead of failing with
NotFound/Forbidden. -/
theorem mark_paid_no_notfound_counterexample :
    (∀ t ∈ c9store, t.id ≠ "t-missing")
  ∧ markTransactionAsPaidE "t-missing" "u1" c9store = Except.ok c9store := by
  constructor
  · intro t ht
    simp only [c9store, List.mem_singleton] at ht
    subst ht
    simp [baseTx]
  · rfl

/-- Witness for C2 at a concrete input: purchase of gross 500, deduction 10,
price 12.50, extra charge 75 gives totalValue 6200 on the created row. -/
theorem total_value_formula_witness :
    c2created.totalValue
      = (c2created.quantity - c2created.deduction) * c2created.pricePerUnit
        + c2created.extraAmount := by
  have heq : addTransactionSupabase c2input [pA] "u1" "t-c2" = Except.ok c2created := by
    simp [addTransactionSupabase, c2input, pA, c2created, computeDueDate,
          computePaymentStatus]
    norm_num
  exact (total_value_formula c2input [pA] "u1" "t-c2" [] pA rfl
    (by norm_num [c2input]) (by norm_num [c2input])).1 c2created heq

/-- Witness for C3: after purchasing net 490 and selling net 450, stock 40 is
strictly between 0 and the minimum level 50, and the status is low. -/
theorem status_classification_witness :
    0 < (summarize pA [purchase490, sale450]).stock
  ∧ (summarize pA [purchase490, sale450]).stock < pA.minStockLevel
  ∧ (summarize pA [purchase490, sale450]).status = StockStatus.low := by
  have hstk : (summarize pA [purchase490, sale450]).stock = 40 := by
    rw [summarize_unfold]
    simp [purchase490, sale450, pA, baseTx, invStep, netQty]
    norm_num
  have hmin : pA.minStockLevel = 50 := rfl
  have h1 : 0 < (summarize pA [purchase490, sale450]).stock := by
    rw [hstk]; norm_num
  have h2 : (summarize pA [purchase490, sale450]).stock < pA.minStockLevel := by
    rw [hstk, hmin]; norm_num
  exact ⟨h1, h2, (status_classification_rules pA [purchase490, sale450]).2.1 h1 h2⟩

/-- Witness for C4: swapping two concrete transactions leaves the summary
unchanged. -/
theorem summary_perm_invariant_witness :
    summarize pA [purchase490, sale450] = summarize pA [sale450, purchase490] :=
  summary_perm_invariant pA [purchase490, sale450] [sale450, purchase490]
    (List.Perm.swap sale450 purchase490 [])

/-- Witness for C5: a credit purchase dated day 100 with a 7-day period is
created pending and due on day 107. -/
theorem payment_lifecycle_witness :
    c5created.paymentStatus = PaymentStatus.pending
  ∧ c5created.dueDate = some (c5input.date + ((7 : ℕ) : ℤ)) := by
  have heq : addTransactionSupabase c5input [pA] "u1" "t-c5" = Except.ok c5created := by
    simp [addTransactionSupabase, c5input, c2input, pA, c5created, c2created,
          computeDueDate, computePaymentStatus]
    norm_num
  exact (payment_lifecycle c5input [pA] "u1" "t-c5" [] pA rfl) c5created
    (Or.inl heq) |>.2.1 7 rfl rfl (by norm_num)

/-- Witness for C6: a pending row due on day 95 read with start-of-day 100 is
surfaced as overdue by both services. -/
theorem overdue_on_read_witness :
    (refreshStatusSupabase 100 pendingTx).paymentStatus = PaymentStatus.overdue
  ∧ (refreshStatusMock 100 pendingTx).paymentStatus = PaymentStatus.overdue :=
  (overdue_on_read pendingTx 100 100 95 (le_refl 100)).1 rfl rfl (by norm_num)

/-- Witness for C7 (amended): selling 5 units of a product with computed stock
0 is stopped by the handler's validation loop and the store is untouched. -/
theorem sale_guard_in_handler_witness :
    itemsValid TxType.sale [summarize pA []] (c7item :: [])
        = Except.error "Insufficient stock for product."
  ∧ handleTransactionMock TxType.sale (c7item :: []) [summarize pA []] c7input [pA]
        "u1" "t-w7" [purchase490] = [purchase490] :=
  sale_guard_in_handler c7item [] [summarize pA []] (summarize pA []) c7input [pA]
    "u1" "t-w7" [purchase490] (by decide) rfl
    (by rw [show (summarize pA []).stock = 0 from rfl]; norm_num [c7item])

/-- Witness for C8 (amended): the purchase with deduction 10 over gross 5 is
persisted by both services with totalValue computed by the unvalidated
formula. -/
theorem no_numeric_validation_witness :
    (∃ newTx, addTransactionMock c8input [pA] "u1" "t-w8" []
          = Except.ok (newTx, newTx :: [])
        ∧ newTx.totalValue = (c8input.quantity - c8input.deduction) * c8input.pricePerUnit)
  ∧ (∃ created, addTransactionSupabase c8input [pA] "u1" "t-w8" = Except.ok created
        ∧ created.totalValue
            = (c8input.quantity - c8input.deduction) * c8input.pricePerUnit
              + c8input.extraAmount) :=
  no_numeric_validation c8input [pA] "u1" "t-w8" [] pA rfl
    (Or.inr (Or.inr (by norm_num [c8input, c7input])))

/-- Witness for C9 (amended): marking an id absent from the concrete store is
a silent no-op. -/
theorem mark_paid_behavior_witness :
    markTransactionAsPaid "t-missing" "u1" c9store = c9store :=
  (mark_paid_behavior "t-missing" "u1" c9store).1 (by decide)

/-- Witness for C10: a product with no transactions at all is summarised with
stock 0, avgCost 0, totalValue 0 and status out. -/
theorem summary_covers_all_products_witness :
    summarize pA (getTransactionsMock "u1" 0 [])
      = { toProduct := pA, stock := 0, avgCost := 0, totalValue := 0,
          status := StockStatus.out } :=
  (summary_covers_all_products "u1" 0 [pA] []).2.2 pA (by decide)
